import Mathlib

/-!
# A shallow embedding of `kivyx/uix/behavior/spinner.py`

This file models the `KXSpinnerLikeBehavior` mix-in: a restartable,
cancellable control loop that builds a dropdown of option widgets from a
descriptor list, reuses previously built widgets through a resource pool,
applies an auto-selection policy, and runs a steady-state open/close loop.

Modelling conventions:

* Widget and dropdown identity is an explicit `id : Nat`; Python object
  identity (`is`, membership via `in`) becomes equality of ids.
* Classes (`option_cls`, `dropdown_cls`) are opaque identifiers `ClsId`.
  The Kivy `Factory.get` name-resolution step is the identity in this model
  (the registry is an external collaborator).
* Kivy containers keep their children newest-first: `add_widget` prepends,
  so after adding `w0, w1, ..., w(n-1)` in order the `children` list is
  `[w(n-1), ..., w1, w0]`.
* Property values (`spacing`, `padding`, `height`, descriptor fields) are
  opaque scalars `Val := Nat`.
* `setattr(w, name, value)` can raise for an unknown attribute; an
  environment `Env` says which field names a class accepts, and widget
  field application returns `Except`.
* Event bindings (`self.bind`, `dd.bind`, `w.bind`) are a multiset of
  `Binding` tokens carried in the state; `unbind` erases one matching
  occurrence, as Kivy does.
* The `asynckivy` task model: `ak.start` runs the coroutine synchronously
  up to its first genuine suspension point (`await ak.event(...)`);
  `Task.cancel()` on a task suspended at such a point resumes it with a
  cancellation exception, so its `finally:` block runs to completion
  before `cancel()` returns.  A finished (returned or errored) task is
  unaffected by `cancel()`.
* `Clock.create_trigger` coalesces: calling the trigger while it is
  already scheduled is a no-op; the callback fires once at the next tick.
* Kivy properties dispatch observers only when the stored value changes.
-/

/-- Opaque property values. -/
abbrev Val := Nat

/-- Field (attribute) names appearing in option descriptors. -/
abbrev FieldName := Nat

/-- Opaque widget-class identifiers, standing for Python class objects. -/
abbrev ClsId := Nat

/-- An option descriptor: an ordered field-name/value mapping, one per
option (an element of `option_data`). -/
abbrev Desc := List (FieldName × Val)

/-- Update an association list at a key, keeping the first occurrence's
position, appending when absent; models attribute assignment. -/
def setAssoc : List (FieldName × Val) → FieldName → Val → List (FieldName × Val)
  | [], f, v => [(f, v)]
  | (g, u) :: rest, f, v =>
    if g = f then (f, v) :: rest else (g, u) :: setAssoc rest f v

/-- An option widget: identity, its class, and its attribute store. -/
structure Widget where
  id : Nat
  cls : ClsId
  props : List (FieldName × Val)
  deriving DecidableEq, Repr

/-- `setattr` on a widget (the success case). -/
def Widget.setAttr (w : Widget) (f : FieldName) (v : Val) : Widget :=
  { w with props := setAssoc w.props f v }

/-- Which field names each widget class accepts; `setattr` with a field
the class does not know raises in Python. -/
structure Env where
  known : ClsId → FieldName → Bool

/-- Apply descriptor fields to a widget in order, mirroring
`for name, value in w_props.items(): setattr_(w, name, value)`;
an unknown field raises, reported here as `.error` carrying the widget as
mutated so far and the offending field. -/
def applyFields (env : Env) : Widget → Desc → Except (Widget × FieldName) Widget
  | w, [] => .ok w
  | w, (f, v) :: rest =>
    if env.known w.cls f then applyFields env (w.setAttr f v) rest
    else .error (w, f)

/-- A dropdown instance: identity, class, its container's children
(newest-first, Kivy order), the container's spacing/padding, and whether
it is currently shown. -/
structure Dropdown where
  id : Nat
  cls : ClsId
  children : List Widget
  spacing : Val
  padding : Val
  isOpen : Bool
  deriving DecidableEq, Repr

/-- The live event subscriptions made by the mix-in, named after the bind
sites in the source.  A list because Kivy allows (and this code can
create) duplicate bindings; `unbind` removes one occurrence. -/
inductive Binding where
  /-- `self.bind(option_spacing=c.setter("spacing"))` for the container of
  the dropdown with the given id. -/
  | spacingForward (ddId : Nat)
  /-- `self.bind(option_padding=c.setter("padding"))`. -/
  | paddingForward (ddId : Nat)
  /-- `self.bind(height=_sync_height)` with `_sync_height` closed over the
  container of the dropdown with the given id. -/
  | heightSync (ddId : Nat)
  /-- `dd.bind(on_select=self._on_dropdown_select)`. -/
  | onSelect (ddId : Nat)
  /-- `w.bind(on_release=partial(self._on_release_item, dd))`. -/
  | onReleaseItem (wId : Nat) (ddId : Nat)
  deriving DecidableEq, Repr

/-- The configuration properties of the mix-in (§ external interface). -/
structure Config where
  option_data : List Desc
  option_spacing : Val
  option_padding : Val
  option_cls : Option ClsId
  auto_select : Option Nat
  dropdown_cls : Option ClsId
  sync_height : Bool
  height : Val
  deriving DecidableEq, Repr

/-- `self._previously_used_resources`. -/
structure Resources where
  dropdown : Option Dropdown
  option_widgets : Option (List Widget)
  deriving DecidableEq, Repr

/-- The state of `self._main_task`.  `done` covers the initial dummy task
and any task that returned, errored, or was cancelled; a live task is
suspended at one of the two `await ak.event(...)` points of the
steady-state loop, carrying the dropdown it works with and whether the
height-sync binding was made (needed by its cleanup). -/
inductive TaskState where
  | done
  | awaitingRelease (dd : Dropdown) (syncBound : Bool)
  | awaitingDismiss (dd : Dropdown) (syncBound : Bool)
  deriving DecidableEq, Repr

/-- The whole mix-in instance: configuration, selection (the id of the
selected widget, `none` for Python `None`), the resource pool, the live
bindings, a fresh-id allocator for newly constructed widgets/dropdowns,
the task, the pending-trigger flag of `Clock.create_trigger`, and a
counter of how many times `_main` started executing. -/
structure SpinnerState where
  cfg : Config
  selection : Option Nat
  res : Resources
  bindings : List Binding
  fresh : Nat
  task : TaskState
  scheduled : Bool
  setups : Nat
  deriving DecidableEq, Repr

/-- The selection policy, lines 131-140 of the source:

```
auto = self.auto_select
cs = dd.container.children
if self.selection in cs: pass
elif auto is None or len(cs) <= auto: self.selection = None
else: self.selection = cs[-(auto + 1)]
```

`cs` is the children list in Kivy (newest-first) order; Python's negative
index `cs[-(auto+1)]` is position `cs.length - (auto+1)`.

This first definition is the `self.selection in cs` membership test
(`None in cs` is false since no widget equals `None`). -/
def selInChildren (sel : Option Nat) (cs : List Widget) : Bool :=
  match sel with
  | some s => cs.any (fun w => w.id = s)
  | none => false

/-- See the doc comment above `selInChildren`; this is the `elif`/`else`
part together with the membership test. -/
def selectAfterSetup (sel : Option Nat) (cs : List Widget) (auto : Option Nat) :
    Option Nat :=
  if selInChildren sel cs then
    sel
  else
    match auto with
    | none => none
    | some a =>
      if cs.length ≤ a then none
      else (cs.get? (cs.length - (a + 1))).map Widget.id

/-- Lines 107-111: the pooled option widgets are reused only when the pool
is non-empty (truthy) and its first widget's class is the configured
option class; the check happens once, before iteration. -/
def poolOrEmpty (ws : Option (List Widget)) (ocls : ClsId) : List Widget :=
  match ws with
  | none => []
  | some [] => []
  | some (w :: rest) => if w.cls = ocls then w :: rest else []

/-- Lines 114-121: draw widgets from `itertools.chain(pool, iter(option_cls,
None))` — pooled widgets first, then freshly constructed ones — zip them
with the descriptor list, apply each descriptor's fields, producing the
widgets in descriptor order together with the advanced fresh-id counter.
An unknown field aborts with the widgets completed so far. -/
def buildLoop (env : Env) (ocls : ClsId) :
    List Widget → Nat → List Desc →
    Except (List Widget × Nat × FieldName) (List Widget × Nat)
  | _, fresh, [] => .ok ([], fresh)
  | pool, fresh, d :: ds =>
    let step : Widget × List Widget × Nat :=
      match pool with
      | w :: rest => (w, rest, fresh)
      | [] => (⟨fresh, ocls, []⟩, [], fresh + 1)
    match applyFields env step.1 d with
    | .error (_, f) => .error ([], step.2.2, f)
    | .ok w' =>
      match buildLoop env ocls step.2.1 step.2.2 ds with
      | .ok (ws, fr) => .ok (w' :: ws, fr)
      | .error (ws, fr, f) => .error (w' :: ws, fr, f)

/-- The `height` attribute, present on every widget; `sync_height` writes
it on each child of the container. -/
def heightField : FieldName := 0

/-- Observable atomic actions of one `_restart`, used to state ordering
properties between the cancelled run's cleanup and the new run's setup. -/
inductive Act where
  /-- `dd.unbind(on_select=self._on_dropdown_select)` in the `finally`. -/
  | cleanupUnbindOnSelect
  /-- `self.unbind(height=_sync_height)` in the `finally`. -/
  | cleanupUnbindHeight
  /-- `res['dropdown'] = dd; res['option_widgets'] = dd.container.children[::-1]`. -/
  | cleanupStorePool
  /-- `dd.clear_widgets()`. -/
  | cleanupClearChildren
  /-- `dd._real_dismiss()`. -/
  | cleanupForceDismiss
  /-- `_main` begins executing. -/
  | setupBegin
  /-- A fresh dropdown instance was constructed. -/
  | setupNewDropdown (ddId : Nat)
  /-- The pooled dropdown was reused. -/
  | setupReuseDropdown (ddId : Nat)
  /-- The spacing/padding forwarding bindings were made. -/
  | setupBindForward (ddId : Nat)
  /-- A silent `return` (missing dropdown or option class). -/
  | setupReturn
  /-- One option widget was bound and added to the dropdown. -/
  | setupAddWidget (wId : Nat)
  /-- The height-sync binding was made. -/
  | setupBindHeight
  /-- The selection policy assigned `self.selection`. -/
  | setupSetSelection (sel : Option Nat)
  /-- `dd.bind(on_select=...)`, entering the steady-state loop. -/
  | setupBindOnSelect
  /-- `setattr` raised on an unknown descriptor field; the exception
  propagates out of `_main`. -/
  | setupError (f : FieldName)
  deriving DecidableEq, Repr

/-- Whether an action belongs to the `finally` cleanup block. -/
def Act.isCleanup : Act → Bool
  | .cleanupUnbindOnSelect | .cleanupUnbindHeight | .cleanupStorePool
  | .cleanupClearChildren | .cleanupForceDismiss => true
  | _ => false

/-- How `_main` finished its synchronous segment (`ak.start` runs the
coroutine until its first suspension). -/
inductive MainResult where
  /-- `if not cls: return` (line 82). -/
  | abortNoDropdownCls
  /-- `if not option_cls: return` (line 100). -/
  | abortNoOptionCls
  /-- `setattr` raised; the task finished with that exception. -/
  | errored (f : FieldName)
  /-- Setup completed; the task is suspended at `await ak_event(self,
  'on_release')`. -/
  | suspended
  deriving DecidableEq, Repr

/-- Lines 80-96: reuse the pooled dropdown when its class matches the
resolved `dropdown_cls`, otherwise construct a fresh one, apply
spacing/padding to its container and bind the forwarding setters.
Returns the dropdown, whether it was the pooled one, the advanced fresh
counter, the bindings created, and the trace. -/
def prepareDropdown (cfg : Config) (pooled : Option Dropdown) (dcls : ClsId)
    (fresh : Nat) : Dropdown × Bool × Nat × List Binding × List Act :=
  match pooled with
  | some dd0 =>
    if dd0.cls = dcls then
      (dd0, true, fresh, [], [.setupReuseDropdown dd0.id])
    else
      (⟨fresh, dcls, [], cfg.option_spacing, cfg.option_padding, false⟩,
       false, fresh + 1,
       [.spacingForward fresh, .paddingForward fresh],
       [.setupNewDropdown fresh, .setupBindForward fresh])
  | none =>
    (⟨fresh, dcls, [], cfg.option_spacing, cfg.option_padding, false⟩,
     false, fresh + 1,
     [.spacingForward fresh, .paddingForward fresh],
     [.setupNewDropdown fresh, .setupBindForward fresh])

/-- The synchronous segment of `_main` (lines 76-144): everything from
entry up to the first `await`.  Returns the updated state, the action
trace, and how the segment ended.

When the reused (pooled) dropdown gets widgets added and the segment then
errors, the pool's dropdown entry reflects those children: in Python
`res['dropdown']` and `dd` are the same object. -/
def runMain (env : Env) (s : SpinnerState) : SpinnerState × List Act × MainResult :=
  match s.cfg.dropdown_cls with
  | none => (s, [.setupBegin], .abortNoDropdownCls)
  | some dcls =>
    let p := prepareDropdown s.cfg s.res.dropdown dcls s.fresh
    let dd := p.1
    let reused := p.2.1
    let fresh1 := p.2.2.1
    let s1 : SpinnerState :=
      { s with bindings := s.bindings ++ p.2.2.2.1, fresh := fresh1 }
    let tr1 : List Act := Act.setupBegin :: p.2.2.2.2
    match s.cfg.option_cls with
    | none => (s1, tr1 ++ [.setupReturn], .abortNoOptionCls)
    | some ocls =>
      let pool := poolOrEmpty s1.res.option_widgets ocls
      match buildLoop env ocls pool fresh1 s.cfg.option_data with
      | .error (doneWs, fresh2, f) =>
        let ddE := { dd with children := doneWs.reverse ++ dd.children }
        ({ s1 with
            fresh := fresh2
            bindings := s1.bindings
              ++ doneWs.map (fun w => Binding.onReleaseItem w.id dd.id)
            res := if reused then { s1.res with dropdown := some ddE } else s1.res
            task := .done },
         tr1 ++ doneWs.map (fun w => Act.setupAddWidget w.id)
             ++ [.setupError f],
         .errored f)
      | .ok (ws, fresh2) =>
        let dd2 := { dd with children := ws.reverse ++ dd.children }
        let dd3 := if s.cfg.sync_height then
            { dd2 with children :=
                dd2.children.map (fun w => w.setAttr heightField s.cfg.height) }
          else dd2
        let syncBound := s.cfg.sync_height
        let sel' := selectAfterSetup s.selection dd3.children s.cfg.auto_select
        ({ s1 with
            fresh := fresh2
            bindings := s1.bindings
              ++ ws.map (fun w => Binding.onReleaseItem w.id dd.id)
              ++ (if syncBound then [Binding.heightSync dd.id] else [])
              ++ [Binding.onSelect dd.id]
            selection := sel'
            task := .awaitingRelease dd3 syncBound },
         tr1 ++ ws.map (fun w => Act.setupAddWidget w.id)
             ++ (if syncBound then [Act.setupBindHeight] else [])
             ++ [.setupSetSelection sel', .setupBindOnSelect],
         .suspended)

/-- The action trace of the `finally` block (lines 151-158), in source
order; the height unbind happens only when the binding was made. -/
def cleanupTrace (syncBound : Bool) : List Act :=
  Act.cleanupUnbindOnSelect ::
    ((if syncBound then [Act.cleanupUnbindHeight] else [])
      ++ [Act.cleanupStorePool, Act.cleanupClearChildren,
          Act.cleanupForceDismiss])

/-- The `finally` block's effect (lines 151-158): unbind `on_select`,
unbind height-sync when bound, store the dropdown and its children
(reversed, back to descriptor order) in the pool, clear the dropdown's
children (the pool entry aliases `dd`, hence holds the cleared list), and
force-dismiss it. -/
def runCleanup (dd : Dropdown) (syncBound : Bool) (s : SpinnerState) : SpinnerState :=
  let b1 := s.bindings.erase (.onSelect dd.id)
  let b2 := if syncBound then b1.erase (.heightSync dd.id) else b1
  { s with
      bindings := b2
      res := { dropdown := some { dd with children := [], isOpen := false }
               option_widgets := some dd.children.reverse }
      task := .done }

/-- `self._main_task.cancel()`: a task suspended at an `await` is resumed
with a cancellation exception and its `finally` runs to completion before
`cancel()` returns; a finished task is unaffected. -/
def cancelTask (s : SpinnerState) : SpinnerState × List Act :=
  match s.task with
  | .done => (s, [])
  | .awaitingRelease dd sb => (runCleanup dd sb s, cleanupTrace sb)
  | .awaitingDismiss dd sb => (runCleanup dd sb s, cleanupTrace sb)

/-- `_restart` (lines 72-74): cancel the current task (running its cleanup
synchronously), then start `_main`, which executes its synchronous
segment immediately. -/
def restart (env : Env) (s : SpinnerState) : SpinnerState × List Act × MainResult :=
  let c := cancelTask s
  let m := runMain env { c.1 with setups := c.1.setups + 1 }
  (m.1, c.2 ++ m.2.1, m.2.2)

/-- One scheduling tick of the `Clock`: if the trigger is pending, it
fires once, clearing the flag and running `_restart`. -/
def tick (env : Env) (s : SpinnerState) : SpinnerState × List Act :=
  if s.scheduled then
    let r := restart env { s with scheduled := false }
    (r.1, r.2.1)
  else (s, [])

/-- A mutation of one of the host-writable configuration properties. -/
inductive Mutation where
  | setOptionData (d : List Desc)
  | setOptionCls (c : Option ClsId)
  | setAutoSelect (a : Option Nat)
  | setDropdownCls (c : Option ClsId)
  | setSyncHeight (b : Bool)
  | setSpacing (v : Val)
  | setPadding (v : Val)
  deriving DecidableEq, Repr

/-- Whether the mutated property is one of the five bound to the restart
trigger in `__init__` (lines 67-70): `option_data`, `option_cls`,
`auto_select`, `dropdown_cls`, `sync_height`. -/
def Mutation.triggerBound : Mutation → Bool
  | .setOptionData _ | .setOptionCls _ | .setAutoSelect _
  | .setDropdownCls _ | .setSyncHeight _ => true
  | .setSpacing _ | .setPadding _ => false

/-- Whether the assignment changes the stored value; Kivy properties
dispatch their observers only in that case. -/
def Mutation.changes (m : Mutation) (cfg : Config) : Bool :=
  match m with
  | .setOptionData d => decide (d ≠ cfg.option_data)
  | .setOptionCls c => decide (c ≠ cfg.option_cls)
  | .setAutoSelect a => decide (a ≠ cfg.auto_select)
  | .setDropdownCls c => decide (c ≠ cfg.dropdown_cls)
  | .setSyncHeight b => decide (b ≠ cfg.sync_height)
  | .setSpacing v => decide (v ≠ cfg.option_spacing)
  | .setPadding v => decide (v ≠ cfg.option_padding)

/-- Store the assigned value in the configuration. -/
def Config.setBy (cfg : Config) : Mutation → Config
  | .setOptionData d => { cfg with option_data := d }
  | .setOptionCls c => { cfg with option_cls := c }
  | .setAutoSelect a => { cfg with auto_select := a }
  | .setDropdownCls c => { cfg with dropdown_cls := c }
  | .setSyncHeight b => { cfg with sync_height := b }
  | .setSpacing v => { cfg with option_spacing := v }
  | .setPadding v => { cfg with option_padding := v }

/-- Apply a dropdown-updating function at every place a dropdown lives in
the task state. -/
def TaskState.mapDD (f : Dropdown → Dropdown) : TaskState → TaskState
  | .done => .done
  | .awaitingRelease dd sb => .awaitingRelease (f dd) sb
  | .awaitingDismiss dd sb => .awaitingDismiss (f dd) sb

/-- The container setter installed by `c.setter("spacing")`: it updates
the container of exactly the dropdown whose construction bound it. -/
def forwardSpacing (bs : List Binding) (v : Val) (dd : Dropdown) : Dropdown :=
  if Binding.spacingForward dd.id ∈ bs then { dd with spacing := v } else dd

/-- The container setter installed by `c.setter("padding")`. -/
def forwardPadding (bs : List Binding) (v : Val) (dd : Dropdown) : Dropdown :=
  if Binding.paddingForward dd.id ∈ bs then { dd with padding := v } else dd

/-- One property assignment by the host: store the value and, when it
changes, dispatch the observers — the restart trigger for the five bound
properties (coalescing: a pending trigger stays pending), the forwarding
setters for `option_spacing`/`option_padding`.  Forwarding reaches every
aliased reference to a bound dropdown (in the task and in the pool). -/
def applyMutation (s : SpinnerState) (m : Mutation) : SpinnerState :=
  if m.changes s.cfg then
    let s1 := { s with cfg := s.cfg.setBy m }
    match m with
    | .setSpacing v =>
      { s1 with
          task := s1.task.mapDD (forwardSpacing s1.bindings v)
          res := { s1.res with
                    dropdown := s1.res.dropdown.map (forwardSpacing s1.bindings v) } }
    | .setPadding v =>
      { s1 with
          task := s1.task.mapDD (forwardPadding s1.bindings v)
          res := { s1.res with
                    dropdown := s1.res.dropdown.map (forwardPadding s1.bindings v) } }
    | _ => { s1 with scheduled := true }
  else s

/-- A batch of synchronous property assignments (all within one tick). -/
def applyBatch (s : SpinnerState) (ms : List Mutation) : SpinnerState :=
  ms.foldl applyMutation s

/-- The two external events the steady-state loop waits for. -/
inductive Signal where
  | release
  | dismiss
  deriving DecidableEq, Repr

/-- One event delivery to the steady-state loop (lines 147-150): a task
awaiting `on_release` that receives it opens the dropdown (the returned
count is the number of `dd.open` invocations, here 1) and moves on to
await `on_dismiss`; a task awaiting `on_dismiss` that receives it loops
back to await `on_release`.  An event nobody awaits is ignored. -/
def loopStep : TaskState → Signal → TaskState × Nat
  | .awaitingRelease dd sb, .release =>
    (.awaitingDismiss { dd with isOpen := true } sb, 1)
  | .awaitingRelease dd sb, .dismiss => (.awaitingRelease dd sb, 0)
  | .awaitingDismiss dd sb, .dismiss =>
    (.awaitingRelease { dd with isOpen := false } sb, 0)
  | .awaitingDismiss dd sb, .release => (.awaitingDismiss dd sb, 0)
  | .done, _ => (.done, 0)

/-- Deliver a sequence of signals, accumulating the number of `dd.open`
invocations. -/
def runSignals : TaskState → List Signal → TaskState × Nat
  | t, [] => (t, 0)
  | t, sig :: rest =>
    let p := loopStep t sig
    let q := runSignals p.1 rest
    (q.1, p.2 + q.2)

/-- The children of the dropdown a live task works with (the "newly
populated children of the overlay"); empty for a finished task. -/
def TaskState.childrenOf : TaskState → List Widget
  | .done => []
  | .awaitingRelease dd _ => dd.children
  | .awaitingDismiss dd _ => dd.children

/-- Whether the task's run made the height-sync binding. -/
def TaskState.syncBound : TaskState → Bool
  | .done => false
  | .awaitingRelease _ sb => sb
  | .awaitingDismiss _ sb => sb

/-- Whether the task is live (suspended inside the steady-state loop). -/
def TaskState.isLive : TaskState → Bool
  | .done => false
  | .awaitingRelease _ _ => true
  | .awaitingDismiss _ _ => true

/-- An environment where every widget class accepts every field. -/
def envAll : Env := ⟨fun _ _ => true⟩

/-- An environment where field `2` is unknown to every widget class. -/
def envNo2 : Env := ⟨fun _ f => decide (f ≠ 2)⟩

/-- A configuration with three option descriptors `A`, `B`, `C` (field `1`
set to `100`, `200`, `300` respectively) and auto-select index `0`. -/
def cfgABC : Config :=
  { option_data := [[(1, 100)], [(1, 200)], [(1, 300)]]
    option_spacing := 0
    option_padding := 0
    option_cls := some 20
    auto_select := some 0
    dropdown_cls := some 10
    sync_height := false
    height := 0 }

/-- A freshly constructed instance configured with `cfgABC`: empty pool,
no selection, no bindings, dummy task, no pending trigger. -/
def idleABC : SpinnerState :=
  { cfg := cfgABC
    selection := none
    res := { dropdown := none, option_widgets := none }
    bindings := []
    fresh := 0
    task := .done
    scheduled := false
    setups := 0 }

/-- The state after the first run's setup of `idleABC`: task suspended in
the steady-state loop. -/
def liveABC : SpinnerState := (restart envAll idleABC).1

/-- A one-option configuration with `sync_height` enabled. -/
def cfgSync : Config :=
  { cfgABC with option_data := [[(1, 7)]], sync_height := true }

/-- The live state of a run over `cfgSync`. -/
def liveSync : SpinnerState := (restart envAll { idleABC with cfg := cfgSync }).1

/-- A configuration whose second descriptor uses the unknown field `2`. -/
def cfgBadField : Config :=
  { cfgABC with option_data := [[(1, 7)], [(2, 9)]] }

/-- An idle instance configured with `cfgBadField`. -/
def idleBadField : SpinnerState := { idleABC with cfg := cfgBadField }

/-- An idle instance with a valid dropdown class but no option class. -/
def idleNoOptionCls : SpinnerState :=
  { idleABC with cfg := { cfgABC with option_cls := none } }

/-- `k` rounds of the steady-state loop's external events: an activation
signal followed by a dismissal signal, repeated. -/
def openCloseRounds : Nat → List Signal
  | 0 => []
  | k + 1 => Signal.release :: Signal.dismiss :: openCloseRounds k

/-- C1 (counterexample): with options `[A, B, C]` (fields `(1,100)`,
`(1,200)`, `(1,300)`), auto-select index `0` and no surviving selection,
the run selects the widget built from descriptor `A` (the first one, id
`1`), not the widget built from descriptor `C` (id `3`): the children
list is newest-first, so `cs[-(auto+1)]` is the `auto`-th added widget. -/
theorem auto_select_counterexample :
    (restart envAll idleABC).1.selection = some 1 ∧
    (restart envAll idleABC).1.task.childrenOf =
      [⟨3, 20, [(1, 300)]⟩, ⟨2, 20, [(1, 200)]⟩, ⟨1, 20, [(1, 100)]⟩] ∧
    (restart envAll idleABC).1.selection ≠ some 3 := by decide

/-- C1 (amended): for every descriptor-ordered widget list `ws` and
auto-select index `i`, when no current selection survives, the selection
policy applied to the children (the reverse of `ws`, Kivy order) picks
the widget at position `i` **from the start** of the descriptor list when
`i < ws.length`, and clears the selection when `i` is out of range. -/
theorem auto_select_counts_from_start (ws : List Widget) (sel : Option Nat) (i : Nat)
    (hsel : ∀ w ∈ ws, some w.id ≠ sel) :
    selectAfterSetup sel ws.reverse (some i)
      = if i < ws.length then (ws.get? i).map Widget.id else none := by
  have hc : selInChildren sel ws.reverse = false := by
    cases sel with
    | none => rfl
    | some s =>
      simp only [selInChildren, List.any_eq_false, decide_eq_true_eq, List.mem_reverse]
      intro w hw h
      exact hsel w hw (by rw [h])
  unfold selectAfterSetup
  rw [hc]
  show (if ws.reverse.length ≤ i then none
        else (ws.reverse.get? (ws.reverse.length - (i + 1))).map Widget.id)
      = if i < ws.length then (ws.get? i).map Widget.id else none
  by_cases h : i < ws.length
  · have h1 : ¬ (ws.reverse.length ≤ i) := by
      rw [List.length_reverse]; omega
    rw [if_neg h1, if_pos h, List.length_reverse]
    rw [List.get?_eq_getElem?, List.get?_eq_getElem?,
      List.getElem?_reverse (by omega : ws.length - (i + 1) < ws.length)]
    have h2 : ws.length - 1 - (ws.length - (i + 1)) = i := by omega
    rw [h2]
  · have h1 : ws.reverse.length ≤ i := by
      rw [List.length_reverse]; omega
    rw [if_pos h1, if_neg h]

/-- C1 (witness): the amended statement evaluated on a two-widget list
with index `0`, yielding the first widget's id. -/
theorem auto_select_counts_from_start_witness :
    selectAfterSetup none ([⟨1, 20, []⟩, ⟨2, 20, []⟩] : List Widget).reverse (some 0)
      = some 1 := by
  have h := auto_select_counts_from_start
    ([⟨1, 20, []⟩, ⟨2, 20, []⟩] : List Widget) none 0 (by decide)
  simpa using h

/-- A selection whose id occurs among the children survives the selection
policy untouched. -/
theorem selectAfterSetup_mem (x : Nat) (cs : List Widget) (auto : Option Nat)
    (h : x ∈ cs.map Widget.id) : selectAfterSetup (some x) cs auto = some x := by
  have hin : selInChildren (some x) cs = true := by
    simp only [selInChildren, List.any_eq_true, decide_eq_true_eq]
    exact List.mem_map.mp h
  unfold selectAfterSetup
  rw [hin]
  rfl

/-- Dropdown preparation emits only setup actions. -/
theorem prepare_no_cleanup (cfg : Config) (pooled : Option Dropdown) (dcls : ClsId) (fresh : Nat) :
    ∀ a ∈ (prepareDropdown cfg pooled dcls fresh).2.2.2.2, a.isCleanup = false := by
  cases pooled with
  | none => simp [prepareDropdown, Act.isCleanup]
  | some dd0 =>
    by_cases h : dd0.cls = dcls <;> simp [prepareDropdown, h, Act.isCleanup]

/-- The synchronous segment of `_main` emits only setup actions, never a
cleanup action: the `finally` block can only run on cancellation. -/
theorem runMain_no_cleanup (env : Env) (s : SpinnerState) :
    ∀ a ∈ (runMain env s).2.1, a.isCleanup = false := by
  cases hd : s.cfg.dropdown_cls with
  | none => simp [runMain, hd, Act.isCleanup]
  | some dcls =>
    cases ho : s.cfg.option_cls with
    | none =>
      simp only [runMain, hd, ho, List.mem_append, List.mem_cons,
        List.mem_singleton, List.not_mem_nil, or_false, false_or]
      rintro a ((rfl | ha) | rfl)
      · rfl
      · exact prepare_no_cleanup _ _ _ _ a ha
      · rfl
    | some ocls =>
      cases hb : buildLoop env ocls (poolOrEmpty s.res.option_widgets ocls)
          (prepareDropdown s.cfg s.res.dropdown dcls s.fresh).2.2.1
          s.cfg.option_data with
      | error e =>
        simp only [runMain, hd, ho, hb, List.mem_append, List.mem_cons,
          List.mem_singleton, List.mem_map, List.not_mem_nil, or_false, false_or]
        rintro a (((rfl | ha) | ⟨w, _, rfl⟩) | rfl)
        · rfl
        · exact prepare_no_cleanup _ _ _ _ a ha
        · rfl
        · rfl
      | ok r =>
        simp only [runMain, hd, ho, hb, List.mem_append, List.mem_cons,
          List.mem_singleton, List.mem_map, List.not_mem_nil, or_false, false_or]
        rintro a ((((rfl | ha) | ⟨w, _, rfl⟩) | hif) | (rfl | rfl))
        · rfl
        · exact prepare_no_cleanup _ _ _ _ a ha
        · rfl
        · by_cases hs : s.cfg.sync_height = true
          · rw [if_pos hs] at hif
            rcases List.mem_singleton.mp hif with rfl
            rfl
          · rw [if_neg hs] at hif
            exact absurd hif (List.not_mem_nil a)
        · rfl
        · rfl

/-- Assigning a property never touches the setup counter. -/
theorem applyMutation_setups (s : SpinnerState) (m : Mutation) :
    (applyMutation s m).setups = s.setups := by
  cases m <;> simp only [applyMutation] <;> split <;> rfl

/-- Assigning a property never clears a pending restart trigger. -/
theorem applyMutation_scheduled_mono (s : SpinnerState) (m : Mutation)
    (h : s.scheduled = true) : (applyMutation s m).scheduled = true := by
  cases m <;> simp only [applyMutation] <;> split <;> (first | exact h | rfl)

/-- A batch of assignments never touches the setup counter. -/
theorem applyBatch_setups (ms : List Mutation) (s : SpinnerState) :
    (applyBatch s ms).setups = s.setups := by
  induction ms generalizing s with
  | nil => rfl
  | cons m rest ih =>
    show (applyBatch (applyMutation s m) rest).setups = s.setups
    rw [ih, applyMutation_setups]

/-- A batch of assignments never clears a pending restart trigger. -/
theorem applyBatch_scheduled_mono (ms : List Mutation) (s : SpinnerState)
    (h : s.scheduled = true) : (applyBatch s ms).scheduled = true := by
  induction ms generalizing s with
  | nil => exact h
  | cons m rest ih =>
    exact ih _ (applyMutation_scheduled_mono s m h)

/-- A value-changing assignment to a trigger-bound property schedules the
restart trigger. -/
theorem applyMutation_dispatch_bound (s : SpinnerState) (m : Mutation)
    (h1 : m.triggerBound = true) (h2 : m.changes s.cfg = true) :
    (applyMutation s m).scheduled = true := by
  cases m <;> simp only [applyMutation, h2, if_true] <;>
    first
      | rfl
      | simp [Mutation.triggerBound] at h1

/-- `_main` never touches the setup counter or the trigger flag. -/
theorem runMain_preserves (env : Env) (s : SpinnerState) :
    (runMain env s).1.setups = s.setups ∧ (runMain env s).1.scheduled = s.scheduled := by
  cases hd : s.cfg.dropdown_cls with
  | none => simp [runMain, hd]
  | some dcls =>
    cases ho : s.cfg.option_cls with
    | none => simp [runMain, hd, ho]
    | some ocls =>
      cases hb : buildLoop env ocls (poolOrEmpty s.res.option_widgets ocls)
          (prepareDropdown s.cfg s.res.dropdown dcls s.fresh).2.2.1
          s.cfg.option_data with
      | error e => simp [runMain, hd, ho, hb]
      | ok r => simp [runMain, hd, ho, hb]

/-- Cancellation never touches the setup counter or the trigger flag. -/
theorem cancelTask_preserves (s : SpinnerState) :
    (cancelTask s).1.setups = s.setups ∧ (cancelTask s).1.scheduled = s.scheduled := by
  cases ht : s.task <;> simp [cancelTask, runCleanup, ht]

/-- `_restart` runs exactly one more setup and leaves the trigger flag
alone. -/
theorem restart_setups (env : Env) (s : SpinnerState) :
    (restart env s).1.setups = s.setups + 1 ∧
    (restart env s).1.scheduled = s.scheduled := by
  unfold restart
  constructor
  · rw [(runMain_preserves env _).1]
    show (cancelTask s).1.setups + 1 = s.setups + 1
    rw [(cancelTask_preserves s).1]
  · rw [(runMain_preserves env _).2]
    show (cancelTask s).1.scheduled = s.scheduled
    exact (cancelTask_preserves s).2

/-- Updating the dropdowns referenced by a task does not change whether it
is live. -/
theorem mapDD_isLive (f : Dropdown → Dropdown) (t : TaskState) :
    (t.mapDD f).isLive = t.isLive := by
  cases t <;> rfl

/-- Applying descriptor fields changes neither the identity nor the class
of a widget. -/
theorem applyFields_ok_id (env : Env) (d : Desc) :
    ∀ w w', applyFields env w d = .ok w' → w'.id = w.id ∧ w'.cls = w.cls := by
  induction d with
  | nil =>
    intro w w' h
    cases h
    exact ⟨rfl, rfl⟩
  | cons p rest ih =>
    intro w w' h
    unfold applyFields at h
    split at h
    · obtain ⟨h1, h2⟩ := ih _ _ h
      exact ⟨h1, h2⟩
    · cases h

/-- When every field of a descriptor is known to the widget class,
applying it succeeds. -/
theorem applyFields_ok_of_known (env : Env) (d : Desc) :
    ∀ w, (∀ p ∈ d, env.known w.cls p.1 = true) →
      ∃ w', applyFields env w d = .ok w' := by
  induction d with
  | nil => exact fun w _ => ⟨w, rfl⟩
  | cons p rest ih =>
    intro w hk
    have hp : env.known w.cls p.1 = true := hk p (List.mem_cons_self p rest)
    obtain ⟨w', hw'⟩ := ih (w.setAttr p.1 p.2)
      (fun q hq => hk q (List.mem_cons_of_mem p hq))
    exact ⟨w', by unfold applyFields; rw [if_pos hp]; exact hw'⟩

/-- When the pool has exactly one widget per descriptor, all of the
configured class, and every descriptor field is known, the option builder
reuses every pooled widget with identity preserved (and constructs
nothing: the fresh counter does not advance). -/
theorem buildLoop_reuse (env : Env) (c : ClsId) (data : List Desc) :
    ∀ pool fresh, pool.length = data.length →
    (∀ w ∈ pool, w.cls = c) →
    (∀ d ∈ data, ∀ p ∈ d, env.known c p.1 = true) →
    ∃ ws, buildLoop env c pool fresh data = .ok (ws, fresh) ∧
      ws.map Widget.id = pool.map Widget.id := by
  induction data with
  | nil =>
    intro pool fresh hlen _ _
    cases pool with
    | nil => exact ⟨[], rfl, rfl⟩
    | cons w rest => simp at hlen
  | cons d ds ih =>
    intro pool fresh hlen hcls hknown
    cases pool with
    | nil => simp at hlen
    | cons w rest =>
      have hwcls : w.cls = c := hcls w (List.mem_cons_self w rest)
      obtain ⟨w', hw'⟩ := applyFields_ok_of_known env d w
        (by rw [hwcls]; exact hknown d (List.mem_cons_self d ds))
      obtain ⟨hid, _⟩ := applyFields_ok_id env d w w' hw'
      obtain ⟨ws, hws, hmap⟩ := ih rest fresh (by simpa using hlen)
        (fun x hx => hcls x (List.mem_cons_of_mem w hx))
        (fun d' hd' p hp => hknown d' (List.mem_cons_of_mem d hd') p hp)
      refine ⟨w' :: ws, ?_, ?_⟩
      · unfold buildLoop
        simp only [hw', hws]
      · simp [hmap, hid]

/-- The option builder succeeds whenever the pool is of the configured
class and every descriptor field is known. -/
theorem buildLoop_ok (env : Env) (c : ClsId) (data : List Desc) :
    ∀ pool fresh, (∀ w ∈ pool, w.cls = c) →
    (∀ d ∈ data, ∀ p ∈ d, env.known c p.1 = true) →
    ∃ ws fr, buildLoop env c pool fresh data = .ok (ws, fr) := by
  induction data with
  | nil => exact fun pool fresh _ _ => ⟨[], fresh, rfl⟩
  | cons d ds ih =>
    intro pool fresh hcls hknown
    have hkd : ∀ p ∈ d, env.known c p.1 = true :=
      hknown d (List.mem_cons_self d ds)
    have hktl : ∀ d' ∈ ds, ∀ p ∈ d', env.known c p.1 = true :=
      fun d' hd' p hp => hknown d' (List.mem_cons_of_mem d hd') p hp
    cases pool with
    | nil =>
      obtain ⟨w', hw'⟩ := applyFields_ok_of_known env d ⟨fresh, c, []⟩ hkd
      obtain ⟨ws, fr, hws⟩ := ih [] (fresh + 1) (by simp) hktl
      refine ⟨w' :: ws, fr, ?_⟩
      unfold buildLoop
      simp only [hw', hws]
    | cons w rest =>
      obtain ⟨w', hw'⟩ := applyFields_ok_of_known env d w
        (by rw [hcls w (List.mem_cons_self w rest)]; exact hkd)
      obtain ⟨ws, fr, hws⟩ := ih rest fresh
        (fun x hx => hcls x (List.mem_cons_of_mem w hx)) hktl
      refine ⟨w' :: ws, fr, ?_⟩
      unfold buildLoop
      simp only [hw', hws]

/-- With an empty pool, every built widget is freshly constructed: its
id is at least the starting fresh counter. -/
theorem buildLoop_fresh_ids (env : Env) (c : ClsId) (data : List Desc) :
    ∀ fresh ws fr, buildLoop env c [] fresh data = .ok (ws, fr) →
      ∀ w ∈ ws, fresh ≤ w.id := by
  induction data with
  | nil =>
    intro fresh ws fr h w hw
    cases h
    cases hw
  | cons d ds ih =>
    intro fresh ws fr h w hw
    simp only [buildLoop] at h
    cases happ : applyFields env ⟨fresh, c, []⟩ d with
    | error e => rw [happ] at h; cases h
    | ok w' =>
      rw [happ] at h
      cases hrec : buildLoop env c [] (fresh + 1) ds with
      | error e => rw [hrec] at h; cases h
      | ok r =>
        rw [hrec] at h
        cases h
        rcases List.mem_cons.mp hw with rfl | hw'
        · have hid := (applyFields_ok_id env d _ _ happ).1
          simp at hid
          omega
        · have := ih (fresh + 1) r.1 r.2 (by rw [← hrec]) w hw'
          omega

/-- Widgets built over a pool of the configured class all have the
configured class. -/
theorem buildLoop_cls (env : Env) (c : ClsId) (data : List Desc) :
    ∀ pool fresh ws fr, (∀ w ∈ pool, w.cls = c) →
      buildLoop env c pool fresh data = .ok (ws, fr) →
      ∀ w ∈ ws, w.cls = c := by
  induction data with
  | nil =>
    intro pool fresh ws fr _ h w hw
    cases h
    cases hw
  | cons d ds ih =>
    intro pool fresh ws fr hcls h w hw
    simp only [buildLoop] at h
    cases pool with
    | nil =>
      cases happ : applyFields env ⟨fresh, c, []⟩ d with
      | error e => rw [happ] at h; cases h
      | ok w' =>
        rw [happ] at h
        cases hrec : buildLoop env c [] (fresh + 1) ds with
        | error e => rw [hrec] at h; cases h
        | ok r =>
          rw [hrec] at h
          cases h
          rcases List.mem_cons.mp hw with rfl | hw'
          · exact (applyFields_ok_id env d _ _ happ).2
          · exact ih [] (fresh + 1) r.1 r.2 (by simp) hrec w hw'
    | cons p rest =>
      cases happ : applyFields env p d with
      | error e => rw [happ] at h; cases h
      | ok w' =>
        rw [happ] at h
        cases hrec : buildLoop env c rest fresh ds with
        | error e => rw [hrec] at h; cases h
        | ok r =>
          rw [hrec] at h
          cases h
          rcases List.mem_cons.mp hw with rfl | hw'
          · rw [(applyFields_ok_id env d _ _ happ).2]
            exact hcls p (List.mem_cons_self p rest)
          · exact ih rest fresh r.1 r.2
              (fun x hx => hcls x (List.mem_cons_of_mem p hx)) hrec w hw'

/-- Setting an attribute on every widget of a list keeps their ids. -/
theorem map_setAttr_id (l : List Widget) (f : FieldName) (v : Val) :
    (l.map (fun w => w.setAttr f v)).map Widget.id = l.map Widget.id := by
  induction l with
  | nil => rfl
  | cons w rest ih =>
    show Widget.id (w.setAttr f v) :: (rest.map (fun w => w.setAttr f v)).map Widget.id
        = w.id :: rest.map Widget.id
    rw [ih]
    rfl

/-- The dropdown handed over by preparation has no children when the
pooled one had none (a fresh dropdown is always empty). -/
theorem prepare_children_empty (cfg : Config) (ddP : Dropdown) (dcls : ClsId)
    (fresh : Nat) (h : ddP.children = []) :
    (prepareDropdown cfg (some ddP) dcls fresh).1.children = [] := by
  by_cases hc : ddP.cls = dcls <;> simp [prepareDropdown, hc, h]

/-- Dropdown preparation never rewinds the fresh-id counter. -/
theorem prepare_fresh_ge (cfg : Config) (pooled : Option Dropdown) (dcls : ClsId)
    (fresh : Nat) : fresh ≤ (prepareDropdown cfg pooled dcls fresh).2.2.1 := by
  cases pooled with
  | none => simp [prepareDropdown]
  | some dd0 => by_cases h : dd0.cls = dcls <;> simp [prepareDropdown, h]

/-- A uniformly matching pool passes the head-class check whole. -/
theorem poolOrEmpty_all (l : List Widget) (c : ClsId) (h : ∀ w ∈ l, w.cls = c) :
    poolOrEmpty (some l) c = l := by
  cases l with
  | nil => rfl
  | cons w rest => simp [poolOrEmpty, h w (List.mem_cons_self w rest)]

/-- A pool of the wrong class is rejected whole by the head-class check. -/
theorem poolOrEmpty_mismatch (l : List Widget) (c c0 : ClsId)
    (h : ∀ w ∈ l, w.cls = c0) (hne : c0 ≠ c) : poolOrEmpty (some l) c = [] := by
  cases l with
  | nil => rfl
  | cons w rest =>
    have hw : w.cls = c0 := h w (List.mem_cons_self w rest)
    simp [poolOrEmpty, hw, hne]

/-- Whatever a uniform pool yields through the head-class check has the
configured class. -/
theorem poolOrEmpty_uniform (l : List Widget) (c c0 : ClsId)
    (h : ∀ w ∈ l, w.cls = c0) :
    ∀ w ∈ poolOrEmpty (some l) c, w.cls = c := by
  cases l with
  | nil => simp [poolOrEmpty]
  | cons w rest =>
    by_cases hc : w.cls = c
    · have hc0 : c0 = c := by rw [← h w (List.mem_cons_self w rest)]; exact hc
      simp only [poolOrEmpty, if_pos hc]
      intro x hx
      rw [h x hx, hc0]
    · simp only [poolOrEmpty, if_neg hc]
      simp

/-- Characterization of a successful setup: the overlay children are the
built widgets in Kivy (reversed) order, with ids and classes inherited
from the build result. -/
theorem runMain_children (env : Env) (t : SpinnerState) (dcls c : ClsId)
    (ddP : Dropdown) (pws ws : List Widget) (fr : Nat)
    (hdcls : t.cfg.dropdown_cls = some dcls)
    (hocls : t.cfg.option_cls = some c)
    (hdd : t.res.dropdown = some ddP)
    (hempty : ddP.children = [])
    (hws : t.res.option_widgets = some pws)
    (hbl : buildLoop env c (poolOrEmpty (some pws) c)
        (prepareDropdown t.cfg (some ddP) dcls t.fresh).2.2.1 t.cfg.option_data
      = .ok (ws, fr)) :
    (runMain env t).1.task.childrenOf.map Widget.id = (ws.map Widget.id).reverse ∧
    (∀ w ∈ (runMain env t).1.task.childrenOf, ∃ w0 ∈ ws, w.cls = w0.cls) := by
  have hprep : (prepareDropdown t.cfg (some ddP) dcls t.fresh).1.children = [] :=
    prepare_children_empty t.cfg ddP dcls t.fresh hempty
  simp only [runMain, hdcls, hocls, hdd, hws, hbl]
  simp only [TaskState.childrenOf, hprep, List.append_nil]
  by_cases hs : t.cfg.sync_height = true
  · simp only [hs, if_true]
    constructor
    · rw [map_setAttr_id, List.map_reverse]
    · intro w hw
      obtain ⟨w0, hw0, rfl⟩ := List.mem_map.mp hw
      exact ⟨w0, List.mem_reverse.mp hw0, rfl⟩
  · simp only [hs, Bool.false_eq_true, if_false]
    constructor
    · rw [List.map_reverse]
    · intro w hw
      exact ⟨w, List.mem_reverse.mp hw, rfl⟩

/-- C2: issuing a restart while a run is live first runs the cancelled
run's entire cleanup block - unbind the selection-chosen handler, unbind
height-sync when it was bound, store the dropdown and its children into
the pool, clear the children, force-close the dropdown, in that order and
to completion - and only then does the new run's setup emit any action;
the setup tail contains no cleanup action. -/
theorem restart_cleanup_before_setup (env : Env) (s : SpinnerState)
    (h : s.task.isLive = true) :
    ∃ tr, (restart env s).2.1 = cleanupTrace s.task.syncBound ++ tr ∧
      ∀ a ∈ tr, a.isCleanup = false := by
  cases ht : s.task with
  | done => rw [ht] at h; simp [TaskState.isLive] at h
  | awaitingRelease dd sb =>
    refine ⟨(runMain env { (cancelTask s).1 with
        setups := (cancelTask s).1.setups + 1 }).2.1, ?_, runMain_no_cleanup env _⟩
    simp [restart, cancelTask, ht, TaskState.syncBound]
  | awaitingDismiss dd sb =>
    refine ⟨(runMain env { (cancelTask s).1 with
        setups := (cancelTask s).1.setups + 1 }).2.1, ?_, runMain_no_cleanup env _⟩
    simp [restart, cancelTask, ht, TaskState.syncBound]

/-- C2 (witness): the ordering applied to the live run over `cfgABC`. -/
theorem restart_cleanup_before_setup_witness :
    ∃ tr, (restart envAll liveABC).2.1
        = cleanupTrace liveABC.task.syncBound ++ tr ∧
      ∀ a ∈ tr, a.isCleanup = false :=
  restart_cleanup_before_setup envAll liveABC (by decide)

/-- C3: a batch of N >= 1 same-tick mutations whose first assignment
changes a trigger-bound property runs no setup during the batch, leaves
exactly one restart pending, and the next tick performs exactly one setup
- a further tick performs none. -/
theorem debounce_single_setup (env : Env) (s : SpinnerState)
    (m : Mutation) (ms : List Mutation)
    (hb : m.triggerBound = true) (hc : m.changes s.cfg = true) :
    (applyBatch s (m :: ms)).setups = s.setups ∧
    (applyBatch s (m :: ms)).scheduled = true ∧
    (tick env (applyBatch s (m :: ms))).1.setups = s.setups + 1 ∧
    (tick env (tick env (applyBatch s (m :: ms))).1).1.setups = s.setups + 1 := by
  have h1 : (applyBatch s (m :: ms)).setups = s.setups := applyBatch_setups _ s
  have h2 : (applyBatch s (m :: ms)).scheduled = true := by
    show (applyBatch (applyMutation s m) ms).scheduled = true
    exact applyBatch_scheduled_mono ms _ (applyMutation_dispatch_bound s m hb hc)
  refine ⟨h1, h2, ?_, ?_⟩
  · rw [tick, if_pos h2]
    rw [(restart_setups env _).1]
    simpa using h1
  · have hsetup1 : (tick env (applyBatch s (m :: ms))).1.setups = s.setups + 1 := by
      rw [tick, if_pos h2, (restart_setups env _).1]
      simpa using h1
    have hsched : (tick env (applyBatch s (m :: ms))).1.scheduled = false := by
      rw [tick, if_pos h2]
      exact (restart_setups env _).2
    rw [tick, if_neg (by rw [hsched]; exact Bool.false_ne_true)]
    exact hsetup1

/-- C3 (witness): a two-mutation batch on `idleABC` yields exactly one
setup. -/
theorem debounce_single_setup_witness :
    (applyBatch idleABC
      (Mutation.setAutoSelect (some 1) :: [Mutation.setSyncHeight true])).setups
        = idleABC.setups ∧
    (applyBatch idleABC
      (Mutation.setAutoSelect (some 1) :: [Mutation.setSyncHeight true])).scheduled
        = true ∧
    (tick envAll (applyBatch idleABC
      (Mutation.setAutoSelect (some 1) :: [Mutation.setSyncHeight true]))).1.setups
        = idleABC.setups + 1 ∧
    (tick envAll (tick envAll (applyBatch idleABC
      (Mutation.setAutoSelect (some 1)
        :: [Mutation.setSyncHeight true]))).1).1.setups
        = idleABC.setups + 1 :=
  debounce_single_setup envAll idleABC (Mutation.setAutoSelect (some 1))
    [Mutation.setSyncHeight true] (by decide) (by decide)

/-- C4 (counterexample): after a full run over `cfgSync` (which created
the spacing/padding forwarding bindings, a release-handler binding, the
height-sync binding and the selection-chosen binding) is cancelled and
cleaned up, the spacing/padding forwarding bindings and the per-option
release-handler binding are still present - cleanup does not release
every subscription created during setup. -/
theorem binding_leak_counterexample :
    (cancelTask liveSync).1.bindings
      = [.spacingForward 0, .paddingForward 0, .onReleaseItem 1 0] ∧
    Binding.spacingForward 0 ∈ (cancelTask liveSync).1.bindings ∧
    Binding.onReleaseItem 1 0 ∈ (cancelTask liveSync).1.bindings ∧
    idleABC.bindings = [] := by decide

/-- C4 (amended): a run's cleanup releases exactly one selection-chosen
binding of its dropdown and, when height-sync was bound, one height-sync
binding; the spacing/padding forwarding bindings and the per-option
release-handler bindings are left untouched and persist after the run
terminates (their multiplicities are unchanged). -/
theorem cancel_releases_select_and_height_only (s : SpinnerState)
    (dd : Dropdown) (sb : Bool)
    (h : s.task = .awaitingRelease dd sb ∨ s.task = .awaitingDismiss dd sb) :
    ((cancelTask s).1.bindings.count (Binding.onSelect dd.id)
       = s.bindings.count (Binding.onSelect dd.id) - 1) ∧
    (sb = true → (cancelTask s).1.bindings.count (Binding.heightSync dd.id)
       = s.bindings.count (Binding.heightSync dd.id) - 1) ∧
    (sb = false → (cancelTask s).1.bindings.count (Binding.heightSync dd.id)
       = s.bindings.count (Binding.heightSync dd.id)) ∧
    (∀ i, (cancelTask s).1.bindings.count (Binding.spacingForward i)
       = s.bindings.count (Binding.spacingForward i)) ∧
    (∀ i, (cancelTask s).1.bindings.count (Binding.paddingForward i)
       = s.bindings.count (Binding.paddingForward i)) ∧
    (∀ wi di, (cancelTask s).1.bindings.count (Binding.onReleaseItem wi di)
       = s.bindings.count (Binding.onReleaseItem wi di)) := by
  have hbind : (cancelTask s).1.bindings
      = (if sb = true
         then (s.bindings.erase (Binding.onSelect dd.id)).erase
           (Binding.heightSync dd.id)
         else s.bindings.erase (Binding.onSelect dd.id)) := by
    rcases h with ht | ht <;> simp [cancelTask, ht, runCleanup]
  rw [hbind]
  have hOSHS : (Binding.onSelect dd.id) ≠ (Binding.heightSync dd.id) :=
    fun hx => Binding.noConfusion hx
  have hHSOS : (Binding.heightSync dd.id) ≠ (Binding.onSelect dd.id) :=
    fun hx => Binding.noConfusion hx
  cases sb with
  | true =>
    rw [if_pos rfl]
    refine ⟨?_, fun _ => ?_, fun hf => absurd hf (by simp), fun i => ?_,
      fun i => ?_, fun wi di => ?_⟩
    · rw [List.count_erase_of_ne hOSHS, List.count_erase_self]
    · rw [List.count_erase_self, List.count_erase_of_ne hHSOS]
    · rw [List.count_erase_of_ne (fun hx => Binding.noConfusion hx),
          List.count_erase_of_ne (fun hx => Binding.noConfusion hx)]
    · rw [List.count_erase_of_ne (fun hx => Binding.noConfusion hx),
          List.count_erase_of_ne (fun hx => Binding.noConfusion hx)]
    · rw [List.count_erase_of_ne (fun hx => Binding.noConfusion hx),
          List.count_erase_of_ne (fun hx => Binding.noConfusion hx)]
  | false =>
    rw [if_neg (by simp)]
    refine ⟨?_, fun hf => absurd hf (by simp), fun _ => ?_, fun i => ?_,
      fun i => ?_, fun wi di => ?_⟩
    · rw [List.count_erase_self]
    · rw [List.count_erase_of_ne hHSOS]
    · rw [List.count_erase_of_ne (fun hx => Binding.noConfusion hx)]
    · rw [List.count_erase_of_ne (fun hx => Binding.noConfusion hx)]
    · rw [List.count_erase_of_ne (fun hx => Binding.noConfusion hx)]

/-- C4 (witness): the binding counts around the cleanup of the live
`cfgSync` run. -/
theorem cancel_releases_select_and_height_only_witness :
    ((cancelTask liveSync).1.bindings.count (Binding.onSelect 0)
       = liveSync.bindings.count (Binding.onSelect 0) - 1) ∧
    ((cancelTask liveSync).1.bindings.count (Binding.heightSync 0)
       = liveSync.bindings.count (Binding.heightSync 0) - 1) ∧
    ((cancelTask liveSync).1.bindings.count (Binding.spacingForward 0)
       = liveSync.bindings.count (Binding.spacingForward 0)) ∧
    ((cancelTask liveSync).1.bindings.count (Binding.onReleaseItem 1 0)
       = liveSync.bindings.count (Binding.onReleaseItem 1 0)) := by
  have h := cancel_releases_select_and_height_only liveSync
    ⟨0, 10, [⟨1, 20, [(1, 7), (0, 0)]⟩], 0, 0, false⟩ true (Or.inl (by decide))
  exact ⟨h.1, h.2.1 rfl, h.2.2.2.1 0, h.2.2.2.2.2 1 0⟩

/-- C5 (counterexample): with descriptor field `2` unknown, the restart
over `cfgBadField` errors while applying fields, and neither that
restart's trace nor a subsequent restart's trace contains any cleanup
action - the aborted run's cleanup never runs (the failure happens before
the `try`/`finally` is entered), and the pool is left untouched. -/
theorem error_counterexample :
    (restart envNo2 idleBadField).2.2 = .errored 2 ∧
    (restart envNo2 idleBadField).2.1
      = [.setupBegin, .setupNewDropdown 0, .setupBindForward 0,
         .setupAddWidget 1, .setupError 2] ∧
    (restart envNo2 idleBadField).2.1.filter Act.isCleanup = [] ∧
    (restart envNo2 idleBadField).1.task = .done ∧
    (restart envNo2 idleBadField).1.res = idleBadField.res ∧
    (restart envNo2 (restart envNo2 idleBadField).1).2.1.filter
      Act.isCleanup = [] := by decide

/-- C5 (amended): when descriptor-field application raises, the exception
propagates (the run finishes errored), setup is aborted, and no cleanup
runs for that run: the trace has no cleanup action, selection and the
pooled widget list are untouched, and a later cancel of the errored task
is a no-op performing no cleanup either. -/
theorem error_skips_cleanup (env : Env) (s : SpinnerState) (f : FieldName)
    (h : (runMain env s).2.2 = .errored f) :
    (runMain env s).1.task = .done ∧
    ((runMain env s).2.1.filter Act.isCleanup = []) ∧
    (runMain env s).1.selection = s.selection ∧
    (runMain env s).1.res.option_widgets = s.res.option_widgets ∧
    (cancelTask (runMain env s).1).1 = (runMain env s).1 ∧
    (cancelTask (runMain env s).1).2 = [] := by
  have hfilter : (runMain env s).2.1.filter Act.isCleanup = [] :=
    List.filter_eq_nil_iff.mpr fun a ha => by
      rw [runMain_no_cleanup env s a ha]
      simp
  have hmain : (runMain env s).1.task = .done ∧
      (runMain env s).1.selection = s.selection ∧
      (runMain env s).1.res.option_widgets = s.res.option_widgets := by
    cases hd : s.cfg.dropdown_cls with
    | none => simp [runMain, hd] at h
    | some dcls =>
      cases ho : s.cfg.option_cls with
      | none => simp [runMain, hd, ho] at h
      | some ocls =>
        cases hb : buildLoop env ocls (poolOrEmpty s.res.option_widgets ocls)
            (prepareDropdown s.cfg s.res.dropdown dcls s.fresh).2.2.1
            s.cfg.option_data with
        | error e =>
          refine ⟨?_, ?_, ?_⟩
          · simp [runMain, hd, ho, hb]
          · simp [runMain, hd, ho, hb]
          · simp only [runMain, hd, ho, hb]
            split <;> rfl
        | ok r => simp [runMain, hd, ho, hb] at h
  refine ⟨hmain.1, hfilter, hmain.2.1, hmain.2.2, ?_, ?_⟩
  · simp [cancelTask, hmain.1]
  · simp [cancelTask, hmain.1]

/-- C5 (witness): the errored run over `cfgBadField`. -/
theorem error_skips_cleanup_witness :
    (runMain envNo2 idleBadField).1.task = .done ∧
    ((runMain envNo2 idleBadField).2.1.filter Act.isCleanup = []) ∧
    (runMain envNo2 idleBadField).1.selection = idleBadField.selection ∧
    (runMain envNo2 idleBadField).1.res.option_widgets
      = idleBadField.res.option_widgets ∧
    (cancelTask (runMain envNo2 idleBadField).1).1
      = (runMain envNo2 idleBadField).1 ∧
    (cancelTask (runMain envNo2 idleBadField).1).2 = [] :=
  error_skips_cleanup envNo2 idleBadField 2 (by decide)

/-- C6 (counterexample): with a valid dropdown class and an empty option
class, setup aborts silently (no exception, no loop, pool and selection
untouched) - but the spacing/padding forwarding bindings made while
constructing the fresh dropdown persist, so the abort is not free of side
effects. -/
theorem abort_counterexample :
    (restart envAll idleNoOptionCls).2.2 = .abortNoOptionCls ∧
    (restart envAll idleNoOptionCls).1.task = .done ∧
    (restart envAll idleNoOptionCls).1.res = idleNoOptionCls.res ∧
    (restart envAll idleNoOptionCls).1.selection = none ∧
    idleNoOptionCls.bindings = [] ∧
    (restart envAll idleNoOptionCls).1.bindings
      = [.spacingForward 0, .paddingForward 0] := by decide

/-- C6 (amended): when setup aborts on a missing dropdown class or a
missing option class, it returns silently to Idle: no exception (the
result is an abort, not an error), no steady-state loop, the Resource
Pool and the Selection State are untouched; the only possible persisting
effect is the pair of spacing/padding forwarding bindings made when the
abort happened after a fresh dropdown was constructed. -/
theorem abort_is_silent (env : Env) (s : SpinnerState)
    (hidle : s.task = .done)
    (h : (runMain env s).2.2 = .abortNoDropdownCls ∨
         (runMain env s).2.2 = .abortNoOptionCls) :
    (runMain env s).1.task = .done ∧
    (runMain env s).1.res = s.res ∧
    (runMain env s).1.selection = s.selection ∧
    ((runMain env s).1.bindings = s.bindings ∨
     (runMain env s).1.bindings
       = s.bindings ++ [.spacingForward s.fresh, .paddingForward s.fresh]) := by
  cases hd : s.cfg.dropdown_cls with
  | none =>
    refine ⟨?_, ?_, ?_, Or.inl ?_⟩ <;> simp [runMain, hd, hidle]
  | some dcls =>
    cases ho : s.cfg.option_cls with
    | none =>
      refine ⟨?_, ?_, ?_, ?_⟩
      · simp only [runMain, hd, ho]; exact hidle
      · simp only [runMain, hd, ho]
      · simp only [runMain, hd, ho]
      · simp only [runMain, hd, ho]
        cases hp : s.res.dropdown with
        | none => right; simp [prepareDropdown]
        | some dd0 =>
          by_cases hc : dd0.cls = dcls
          · left; simp [prepareDropdown, hc]
          · right; simp [prepareDropdown, hc]
    | some ocls =>
      cases hb : buildLoop env ocls (poolOrEmpty s.res.option_widgets ocls)
          (prepareDropdown s.cfg s.res.dropdown dcls s.fresh).2.2.1
          s.cfg.option_data with
      | error e => simp [runMain, hd, ho, hb] at h
      | ok r => simp [runMain, hd, ho, hb] at h

/-- C6 (witness): the silent abort over a configuration with no option
class. -/
theorem abort_is_silent_witness :
    (runMain envAll idleNoOptionCls).1.task = .done ∧
    (runMain envAll idleNoOptionCls).1.res = idleNoOptionCls.res ∧
    (runMain envAll idleNoOptionCls).1.selection = idleNoOptionCls.selection ∧
    ((runMain envAll idleNoOptionCls).1.bindings = idleNoOptionCls.bindings ∨
     (runMain envAll idleNoOptionCls).1.bindings
       = idleNoOptionCls.bindings
         ++ [.spacingForward idleNoOptionCls.fresh,
             .paddingForward idleNoOptionCls.fresh]) :=
  abort_is_silent envAll idleNoOptionCls rfl (Or.inr (by decide))

/-- C7: across a restart of a live run, (1) if the option class is
unchanged and the descriptor count equals the previous child count, the
new overlay children are exactly the previous run's widgets, identity
preserved and in the same order; (2) if the option class changed, no
widget of the old pool reappears (the head-class check discards the pool
whole); (3) the new children are uniformly of the configured class, so
the pooled set is never mixed-class. -/
theorem option_widget_pool_reuse (env : Env) (s : SpinnerState) (dd : Dropdown)
    (sb : Bool) (c c0 dcls : ClsId)
    (htask : s.task = .awaitingRelease dd sb)
    (hdcls : s.cfg.dropdown_cls = some dcls)
    (hocls : s.cfg.option_cls = some c)
    (hold : ∀ w ∈ dd.children, w.cls = c0)
    (hknown : ∀ d ∈ s.cfg.option_data, ∀ p ∈ d, env.known c p.1 = true) :
    (c0 = c → dd.children.length = s.cfg.option_data.length →
      (restart env s).1.task.childrenOf.map Widget.id
        = dd.children.map Widget.id) ∧
    (c0 ≠ c → (∀ w ∈ dd.children, w.id < s.fresh) →
      ∀ w ∈ (restart env s).1.task.childrenOf,
        w.id ∉ dd.children.map Widget.id) ∧
    (∀ w ∈ (restart env s).1.task.childrenOf, w.cls = c) := by
  have hre : (restart env s).1 = (runMain env { runCleanup dd sb s with
      setups := (runCleanup dd sb s).setups + 1 }).1 := by
    simp [restart, cancelTask, htask]
  set t : SpinnerState := { runCleanup dd sb s with
      setups := (runCleanup dd sb s).setups + 1 } with ht
  have htd : t.res.dropdown
      = some { dd with children := [], isOpen := false } := rfl
  have htw : t.res.option_widgets = some dd.children.reverse := rfl
  have holdrev : ∀ w ∈ dd.children.reverse, w.cls = c0 :=
    fun w hw => hold w (List.mem_reverse.mp hw)
  refine ⟨?_, ?_, ?_⟩
  · -- same option class, same descriptor count: identity reuse
    intro hc0 hlen
    have hpe : poolOrEmpty (some dd.children.reverse) c = dd.children.reverse :=
      poolOrEmpty_all _ c (fun w hw => by rw [holdrev w hw, hc0])
    obtain ⟨ws, hbl, hmap⟩ := buildLoop_reuse env c t.cfg.option_data
      dd.children.reverse
      (prepareDropdown t.cfg (some { dd with children := [], isOpen := false })
        dcls t.fresh).2.2.1
      (by simpa using hlen)
      (fun w hw => by rw [holdrev w hw, hc0])
      hknown
    have hrm := runMain_children env t dcls c _ dd.children.reverse ws _
      hdcls hocls htd rfl htw (by rw [hpe]; exact hbl)
    rw [hre, hrm.1, hmap, List.map_reverse, List.reverse_reverse]
  · -- option class changed: nothing from the old pool is reused
    intro hc0 hfr
    have hpe : poolOrEmpty (some dd.children.reverse) c = [] :=
      poolOrEmpty_mismatch _ c c0 holdrev hc0
    obtain ⟨ws, fr, hbl⟩ := buildLoop_ok env c t.cfg.option_data
      (poolOrEmpty (some dd.children.reverse) c)
      (prepareDropdown t.cfg (some { dd with children := [], isOpen := false })
        dcls t.fresh).2.2.1
      (poolOrEmpty_uniform _ c c0 holdrev)
      hknown
    have hbl0 := hbl
    rw [hpe] at hbl0
    have hids : ∀ w ∈ ws,
        (prepareDropdown t.cfg (some { dd with children := [], isOpen := false })
          dcls t.fresh).2.2.1 ≤ w.id := by
      intro w hw
      exact buildLoop_fresh_ids env c t.cfg.option_data _ ws fr hbl0 w hw
    have hge := prepare_fresh_ge t.cfg
      (some { dd with children := [], isOpen := false }) dcls t.fresh
    have hrm := runMain_children env t dcls c _ dd.children.reverse ws fr
      hdcls hocls htd rfl htw hbl
    rw [hre]
    intro w hw hmem
    have hwid : w.id ∈ (ws.map Widget.id).reverse := by
      rw [← hrm.1]
      exact List.mem_map_of_mem Widget.id hw
    rw [List.mem_reverse] at hwid
    obtain ⟨w0, hw0, hweq⟩ := List.mem_map.mp hwid
    obtain ⟨wo, hwo, hwoeq⟩ := List.mem_map.mp hmem
    have h1 : t.fresh ≤ w0.id := le_trans hge (hids w0 hw0)
    have h2 : wo.id < s.fresh := hfr wo hwo
    have h3 : t.fresh = s.fresh := rfl
    omega
  · -- the new children all have the configured option class
    obtain ⟨ws, fr, hbl⟩ := buildLoop_ok env c t.cfg.option_data
      (poolOrEmpty (some dd.children.reverse) c)
      (prepareDropdown t.cfg (some { dd with children := [], isOpen := false })
        dcls t.fresh).2.2.1
      (poolOrEmpty_uniform _ c c0 holdrev)
      hknown
    have hrm := runMain_children env t dcls c _ dd.children.reverse ws fr
      hdcls hocls htd rfl htw hbl
    rw [hre]
    intro w hw
    obtain ⟨w0, hw0, hcls⟩ := hrm.2 w hw
    rw [hcls]
    exact buildLoop_cls env c t.cfg.option_data _ _ ws fr
      (poolOrEmpty_uniform _ c c0 holdrev) hbl w0 hw0

/-- C7 (witness): restarting the live `cfgABC` run with unchanged
configuration reuses widgets `1`, `2`, `3` identically. -/
theorem option_widget_pool_reuse_witness :
    (restart envAll liveABC).1.task.childrenOf.map Widget.id = [3, 2, 1] := by
  have h := (option_widget_pool_reuse envAll liveABC
    ⟨0, 10, [⟨3, 20, [(1, 300)]⟩, ⟨2, 20, [(1, 200)]⟩, ⟨1, 20, [(1, 100)]⟩],
      0, 0, false⟩
    false 20 20 10 (by decide) (by decide) (by decide) (by decide)
    (by decide)).1 rfl (by decide)
  rw [h]
  decide

/-- C8: if the widget the Selection State points at is among the newly
populated children of the overlay after setup, the selection is left
unchanged, whatever the configured auto-select index is. -/
theorem selection_stability (env : Env) (s : SpinnerState) (x : Nat)
    (hsel : s.selection = some x)
    (hmem : x ∈ ((runMain env s).1.task.childrenOf.map Widget.id)) :
    (runMain env s).1.selection = s.selection := by
  cases hd : s.cfg.dropdown_cls with
  | none => simp [runMain, hd]
  | some dcls =>
    cases ho : s.cfg.option_cls with
    | none => simp [runMain, hd, ho]
    | some ocls =>
      cases hb : buildLoop env ocls (poolOrEmpty s.res.option_widgets ocls)
          (prepareDropdown s.cfg s.res.dropdown dcls s.fresh).2.2.1
          s.cfg.option_data with
      | error e => simp [runMain, hd, ho, hb]
      | ok r =>
        simp only [runMain, hd, ho, hb] at hmem ⊢
        simp only [TaskState.childrenOf] at hmem
        rw [hsel]
        exact selectAfterSetup_mem x _ _ hmem

/-- C8 (witness): a surviving selection (`some 2`) is kept even though
auto-select index `0` would pick widget `1`. -/
theorem selection_stability_witness :
    (runMain envAll { idleABC with selection := some 2 }).1.selection
      = ({ idleABC with selection := some 2 } : SpinnerState).selection :=
  selection_stability envAll { idleABC with selection := some 2 } 2 rfl (by decide)

/-- C9: in the steady-state loop, an activation signal received while
awaiting activation invokes the overlay's open operation exactly once and
moves to Open; a dismissal moves back to awaiting activation without
invoking open; an activation while already Open invokes nothing; and `k`
activation/dismissal rounds invoke open exactly `k` times, returning to
the awaiting state each round. -/
theorem open_close_alternation (dd : Dropdown) (sb : Bool) :
    (loopStep (.awaitingRelease dd sb) .release
       = (.awaitingDismiss { dd with isOpen := true } sb, 1)) ∧
    (loopStep (.awaitingDismiss dd sb) .dismiss
       = (.awaitingRelease { dd with isOpen := false } sb, 0)) ∧
    (loopStep (.awaitingDismiss dd sb) .release = (.awaitingDismiss dd sb, 0)) ∧
    (dd.isOpen = false → ∀ k,
      runSignals (.awaitingRelease dd sb) (openCloseRounds k)
        = (.awaitingRelease dd sb, k)) := by
  refine ⟨rfl, rfl, rfl, fun h k => ?_⟩
  induction k with
  | zero => rfl
  | succ n ih =>
    have hdd : ({ { dd with isOpen := true } with isOpen := false } : Dropdown) = dd := by
      cases dd
      simp_all
    simp only [openCloseRounds, runSignals, loopStep]
    rw [hdd, ih]
    simp [Nat.add_comm]

/-- C9 (witness): two rounds of the loop invoke open exactly twice. -/
theorem open_close_alternation_witness :
    runSignals (.awaitingRelease ⟨0, 10, [], 0, 0, false⟩ false)
      (openCloseRounds 2)
      = (.awaitingRelease ⟨0, 10, [], 0, 0, false⟩ false, 2) :=
  (open_close_alternation ⟨0, 10, [], 0, 0, false⟩ false).2.2.2 rfl 2

/-- C10: mutating `option_spacing` or `option_padding` is not bound to
the restart trigger, never schedules a restart, never runs a setup and
never cancels the live loop; when a forwarding binding for the live
dropdown exists, the new value reaches that dropdown's container through
it. -/
theorem spacing_padding_only_forward (s : SpinnerState) (v : Val) :
    (Mutation.setSpacing v).triggerBound = false ∧
    (Mutation.setPadding v).triggerBound = false ∧
    (applyMutation s (.setSpacing v)).scheduled = s.scheduled ∧
    (applyMutation s (.setPadding v)).scheduled = s.scheduled ∧
    (applyMutation s (.setSpacing v)).setups = s.setups ∧
    (applyMutation s (.setPadding v)).setups = s.setups ∧
    (applyMutation s (.setSpacing v)).task.isLive = s.task.isLive ∧
    (applyMutation s (.setPadding v)).task.isLive = s.task.isLive ∧
    (∀ dd sb, s.task = .awaitingRelease dd sb →
      Binding.spacingForward dd.id ∈ s.bindings →
      v ≠ s.cfg.option_spacing →
      (applyMutation s (.setSpacing v)).task
        = .awaitingRelease { dd with spacing := v } sb) ∧
    (∀ dd sb, s.task = .awaitingRelease dd sb →
      Binding.paddingForward dd.id ∈ s.bindings →
      v ≠ s.cfg.option_padding →
      (applyMutation s (.setPadding v)).task
        = .awaitingRelease { dd with padding := v } sb) := by
  refine ⟨rfl, rfl, ?_, ?_, applyMutation_setups s _, applyMutation_setups s _,
    ?_, ?_, ?_, ?_⟩
  · simp only [applyMutation]; split <;> rfl
  · simp only [applyMutation]; split <;> rfl
  · simp only [applyMutation]; split <;> (first | exact mapDD_isLive _ _ | rfl)
  · simp only [applyMutation]; split <;> (first | exact mapDD_isLive _ _ | rfl)
  · intro dd sb ht hbind hne
    have hch : (Mutation.setSpacing v).changes s.cfg = true := by
      simp [Mutation.changes, hne]
    simp only [applyMutation, hch, if_true, ht, TaskState.mapDD, forwardSpacing,
      if_pos hbind]
  · intro dd sb ht hbind hne
    have hch : (Mutation.setPadding v).changes s.cfg = true := by
      simp [Mutation.changes, hne]
    simp only [applyMutation, hch, if_true, ht, TaskState.mapDD, forwardPadding,
      if_pos hbind]

/-- C10 (witness): mutating spacing on the live `cfgABC` run updates the
live container in place. -/
theorem spacing_padding_only_forward_witness :
    (applyMutation liveABC (.setSpacing 5)).task
      = .awaitingRelease
          ⟨0, 10, [⟨3, 20, [(1, 300)]⟩, ⟨2, 20, [(1, 200)]⟩,
            ⟨1, 20, [(1, 100)]⟩], 5, 0, false⟩ false := by
  have h := (spacing_padding_only_forward liveABC 5).2.2.2.2.2.2.2.2.1
    ⟨0, 10, [⟨3, 20, [(1, 300)]⟩, ⟨2, 20, [(1, 200)]⟩, ⟨1, 20, [(1, 100)]⟩],
      0, 0, false⟩
    false (by decide) (by decide) (by decide)
  exact h
